import Mathlib

/-! Shallow embedding of the Go package `nadeo` (src/nadeo.go), a client for
the Nadeo Live Services API.  The network, the JSON codec, base64 and the
external Ubisoft identity-ticket service are collaborators of the code; they
are modelled as components of an `Env` record.  Each method of the Go struct
`nadeo` becomes a state-passing function returning a `RunResult`: the Go
return value (as an `Except`), the updated struct, and the list of HTTP
requests the call issued, in order. -/

/-- An HTTP request as the Go code constructs it: method, URL, headers in
insertion order, and an optional body. -/
structure HttpRequest where
  method : String
  url : String
  headers : List (String × String)
  body : Option String
  deriving DecidableEq

/-- An HTTP response as the Go code observes it after reading the body
(`resp.StatusCode` and the bytes read from `resp.Body`). -/
structure HttpResponse where
  statusCode : Nat
  body : String
  deriving DecidableEq

/-- The error envelope `errorResponse` decoded from non-200 auth responses:
`\x7bcode:int, message:string\x7d`.  The struct itself lives outside
src/nadeo.go; its two fields and their use are fixed by lines 67-69, 106-111
and 220-222 of src/nadeo.go and by the spec. -/
structure ErrorResponse where
  code : Int
  message : String
  deriving DecidableEq

/-- The success envelope `authResponse` decoded from 200 auth responses:
`\x7baccessToken, refreshToken\x7d` (src/nadeo.go lines 72-76, 114-118,
225-229). -/
structure AuthResponse where
  accessToken : String
  refreshToken : String
  deriving DecidableEq

/-- Decoded token payload.  The Go fields are `Rat` and `Exp`, both uint32
(src/nadeo.go lines 79-80); values produced by the JSON codec fit in 32 bits. -/
structure TokenPayload where
  rat : Nat
  exp : Nat
  deriving DecidableEq

/-- Modelled from the spec: the structured view of an access token returned
by `parseTokenInfo` (the Token Codec lives outside src/nadeo.go).  Only the
payload fields `rat` and `exp` are consumed by src/nadeo.go. -/
structure TokenInfo where
  payload : TokenPayload
  deriving DecidableEq

/-- Errors returned by the Go methods.  The Go code returns strings built
with `fmt.Errorf`; each constructor corresponds to one `fmt.Errorf` site in
src/nadeo.go, and `Err.render` rebuilds the exact string. -/
inductive Err where
  | transport (msg : String)
  | authError (code : Int) (message : String)
  | refreshWrap (e : Err)
  | serverError (body : String)
  deriving DecidableEq

/-- The exact error string the corresponding `fmt.Errorf` call produces. -/
def Err.render : Err → String
  | .transport msg => "unable to perform request: " ++ msg
  | .authError code message => "error " ++ toString code ++ " from server: " ++ message
  | .refreshWrap e => "unable to refresh token: " ++ e.render
  | .serverError body => "error from server: " ++ body

/-- One entry of the go-cache store: value plus absolute expiration time
(0 = never expires), modelled in seconds. -/
structure CacheEntry where
  value : String
  expiration : Nat
  deriving DecidableEq

/-- The go-cache `cache.Cache` external collaborator, modelled by its
documented semantics: a map from key to entry, with a default TTL applied on
`Set(…, cache.DefaultExpiration)` and lazy expiry on `Get`.  The background
sweep only removes entries `Get` would already report as absent, so it is
not modelled. -/
structure Cache where
  defaultTTL : Nat
  items : List (String × CacheEntry)
  deriving DecidableEq

/-- go-cache `Get`: found entries whose expiration is positive and strictly
in the past are reported as absent. -/
def Cache.get (c : Cache) (now : Nat) (k : String) : Option String :=
  match c.items.lookup k with
  | none => none
  | some e => if 0 < e.expiration ∧ e.expiration < now then none else some e.value

/-- go-cache `Set` with `cache.DefaultExpiration`: store the value with
expiration `now + defaultTTL`, replacing any previous entry for the key. -/
def Cache.set (c : Cache) (now : Nat) (k v : String) : Cache :=
  { c with items := (k, ⟨v, now + c.defaultTTL⟩) :: c.items.filter (fun p => p.1 != k) }

/-- The `nadeo` struct (src/nadeo.go lines 28-38). -/
structure Nadeo where
  audience : String
  accessToken : String
  refreshToken : String
  tokenRefreshTime : Nat
  tokenExpirationTime : Nat
  requestCache : Cache
  deriving DecidableEq

/-- The external world of one call: the wall clock, the HTTP transport
(`Except` error = transport failure, carrying `err.Error()`), the JSON codec
(`none` = `json.Unmarshal` failed, leaving the target zero-valued), base64,
and the opaque Ubisoft identity-ticket service. -/
structure Env where
  now : Nat
  http : HttpRequest → Except String HttpResponse
  parseError : String → Option ErrorResponse
  parseAuth : String → Option AuthResponse
  b64DecodePayload : String → Option String
  parsePayload : String → Option TokenPayload
  ubiAuthOutcome : String → String → String → Except String Unit
  ubiGetTicket : String → String → String → String

/-- Result of one Go method call: the Go return value, the struct after the
call, and every HTTP request the call issued, in order. -/
structure RunResult (α : Type) where
  result : Except Err α
  state : Nadeo
  requests : List HttpRequest

/-- Modelled from the spec: `parseTokenInfo` (Token Codec, outside
src/nadeo.go) splits the token on dots, base64-decodes the middle of the
three parts and parses it, extracting `rat` and `exp`; decode failures
(wrong part count, bad base64, bad structure) are silently swallowed, the
zero-valued `TokenInfo` being returned, as the callers in src/nadeo.go use
the result unconditionally. -/
def parseTokenInfo (env : Env) (token : String) : TokenInfo :=
  match token.toList.splitOn '.' with
  | [_, payload, _] =>
    match env.b64DecodePayload (String.mk payload) >>= env.parsePayload with
    | some p => { payload := p }
    | none => { payload := { rat := 0, exp := 0 } }
  | _ => { payload := { rat := 0, exp := 0 } }

/-- The request built by `AuthenticateUbiTicket` (src/nadeo.go lines 46-55):
POST to the token/ubiservices endpoint, JSON body naming the audience,
headers Content-Type then `Authorization: ubi_v1 t=<ticket>`. -/
def ubiTicketRequest (n : Nadeo) (ticket : String) : HttpRequest :=
  { method := "POST"
    url := "https://prod.trackmania.core.nadeo.online/v2/authentication/token/ubiservices"
    headers := [("Content-Type", "application/json"), ("Authorization", "ubi_v1 t=" ++ ticket)]
    body := some ("\x7b\"audience\":\"" ++ n.audience ++ "\"\x7d") }

/-- The request built by `Authenticate` (src/nadeo.go lines 85-94): POST to
the token/basic endpoint with the same JSON audience body and HTTP Basic
auth.  `req.SetBasicAuth` is part of Go's net/http; the credential pair it
encodes into the header is recorded as given. -/
def basicAuthRequest (n : Nadeo) (username password : String) : HttpRequest :=
  { method := "POST"
    url := "https://prod.trackmania.core.nadeo.online/v2/authentication/token/basic"
    headers := [("Content-Type", "application/json"),
                ("Authorization", "Basic " ++ username ++ ":" ++ password)]
    body := some ("\x7b\"audience\":\"" ++ n.audience ++ "\"\x7d") }

/-- The request built by `refreshNow` (src/nadeo.go lines 202-208): POST to
the token/refresh endpoint, no body, `Authorization: nadeo_v1 t=<refreshToken>`. -/
def refreshRequest (n : Nadeo) : HttpRequest :=
  { method := "POST"
    url := "https://prod.trackmania.core.nadeo.online/v2/authentication/token/refresh"
    headers := [("Authorization", "nadeo_v1 t=" ++ n.refreshToken)]
    body := none }

/-- The request built by `request` (src/nadeo.go lines 163-175): the
caller-supplied method and URL, bearer/Accept/Content-Type headers, and a
body exactly when the method is POST. -/
def resourceRequest (n : Nadeo) (method url data : String) : HttpRequest :=
  { method := method
    url := url
    headers := [("Authorization", "nadeo_v1 t=" ++ n.accessToken),
                ("Accept", "application/json"), ("Content-Type", "application/json")]
    body := if method == "POST" then some data else none }

/-- The common success tail of the three authenticate-or-refresh exchanges
(src/nadeo.go lines 72-80, 114-122, 225-233): decode the success envelope
(zero-valued when `json.Unmarshal` fails), store both tokens, decode the new
access token and store its timing fields. -/
def Nadeo.applyAuthResponse (n : Nadeo) (env : Env) (body : String) : Nadeo :=
  let res := (env.parseAuth body).getD { accessToken := "", refreshToken := "" }
  let tokenInfo := parseTokenInfo env res.accessToken
  { n with accessToken := res.accessToken
           refreshToken := res.refreshToken
           tokenRefreshTime := tokenInfo.payload.rat
           tokenExpirationTime := tokenInfo.payload.exp }

/-- `AuthenticateUbiTicket` (src/nadeo.go lines 46-83). -/
def Nadeo.AuthenticateUbiTicket (n : Nadeo) (env : Env) (ticket : String) : RunResult Unit :=
  let req := ubiTicketRequest n ticket
  match env.http req with
  | .error e => ⟨.error (.transport e), n, [req]⟩
  | .ok resp =>
    if resp.statusCode ≠ 200 then
      let respError := (env.parseError resp.body).getD { code := 0, message := "" }
      ⟨.error (.authError respError.code respError.message), n, [req]⟩
    else
      ⟨.ok (), n.applyAuthResponse env resp.body, [req]⟩

/-- `AuthenticateUbi` (src/nadeo.go lines 40-44): obtain a ticket from the
external Ubisoft service (modelled from the spec as an opaque collaborator:
a login/password exchange whose outcome the Go code discards, and a ticket
string, possibly empty) and authenticate with it. -/
def Nadeo.AuthenticateUbi (n : Nadeo) (env : Env) (email password : String) : RunResult Unit :=
  let appId := "86263886-327a-4328-ac69-527f0d20a237"
  let _ := env.ubiAuthOutcome appId email password
  n.AuthenticateUbiTicket env (env.ubiGetTicket appId email password)

/-- `Authenticate` (src/nadeo.go lines 85-125). -/
def Nadeo.Authenticate (n : Nadeo) (env : Env) (username password : String) : RunResult Unit :=
  let req := basicAuthRequest n username password
  match env.http req with
  | .error e => ⟨.error (.transport e), n, [req]⟩
  | .ok resp =>
    if resp.statusCode ≠ 200 then
      let respError := (env.parseError resp.body).getD { code := 0, message := "" }
      ⟨.error (.authError respError.code respError.message), n, [req]⟩
    else
      ⟨.ok (), n.applyAuthResponse env resp.body, [req]⟩

/-- `refreshNow` (src/nadeo.go lines 202-236). -/
def Nadeo.refreshNow (n : Nadeo) (env : Env) : RunResult Unit :=
  let req := refreshRequest n
  match env.http req with
  | .error e => ⟨.error (.transport e), n, [req]⟩
  | .ok resp =>
    if resp.statusCode ≠ 200 then
      let respError := (env.parseError resp.body).getD { code := 0, message := "" }
      ⟨.error (.authError respError.code respError.message), n, [req]⟩
    else
      ⟨.ok (), n.applyAuthResponse env resp.body, [req]⟩

/-- `CheckRefresh` (src/nadeo.go lines 139-148).  `uint32(time.Now().Unix())`
truncates the clock to 32 bits; the struct field is already uint32. -/
def Nadeo.CheckRefresh (n : Nadeo) (env : Env) : RunResult Unit :=
  let now := env.now % 4294967296
  if now > n.tokenRefreshTime then
    let r := n.refreshNow env
    match r.result with
    | .error e => ⟨.error (.refreshWrap e), r.state, r.requests⟩
    | .ok _ => ⟨.ok (), r.state, r.requests⟩
  else
    ⟨.ok (), n, []⟩

/-- `request` (src/nadeo.go lines 150-200). -/
def Nadeo.request (n : Nadeo) (env : Env) (method url : String) (useCache : Bool)
    (data : String) : RunResult String :=
  match (if useCache then n.requestCache.get env.now url else none) with
  | some cachedResponse => ⟨.ok cachedResponse, n, []⟩
  | none =>
    let cr := n.CheckRefresh env
    match cr.result with
    | .error e => ⟨.error e, cr.state, cr.requests⟩
    | .ok _ =>
      let n2 := cr.state
      let req := resourceRequest n2 method url data
      match env.http req with
      | .error e => ⟨.error (.transport e), n2, cr.requests ++ [req]⟩
      | .ok resp =>
        if resp.statusCode ≠ 200 then
          ⟨.error (.serverError resp.body), n2, cr.requests ++ [req]⟩
        else
          let n3 := if useCache then
              { n2 with requestCache := n2.requestCache.set env.now url resp.body }
            else n2
          ⟨.ok resp.body, n3, cr.requests ++ [req]⟩

/-- `Get` (src/nadeo.go lines 131-133). -/
def Nadeo.Get (n : Nadeo) (env : Env) (url : String) (useCache : Bool) : RunResult String :=
  n.request env "GET" url useCache ""

/-- `Post` (src/nadeo.go lines 135-137). -/
def Nadeo.Post (n : Nadeo) (env : Env) (url data : String) : RunResult String :=
  n.request env "POST" url false data

/-- `GetTokenInfo` (src/nadeo.go lines 127-129). -/
def Nadeo.GetTokenInfo (n : Nadeo) (env : Env) : TokenInfo :=
  parseTokenInfo env n.accessToken

/-- `NewNadeoWithAudience` (src/nadeo.go lines 244-249): empty session with a
fresh cache, default TTL one minute (in seconds). -/
def NewNadeoWithAudience (audience : String) : Nadeo :=
  { audience := audience
    accessToken := ""
    refreshToken := ""
    tokenRefreshTime := 0
    tokenExpirationTime := 0
    requestCache := { defaultTTL := 60, items := [] } }

/-- `NewNadeo` (src/nadeo.go lines 239-241). -/
def NewNadeo : Nadeo :=
  NewNadeoWithAudience "NadeoLiveServices"

/-! ## Helper lemmas and concrete test data -/

/-- A transport that always fails, for concrete evaluations. -/
def httpDown : HttpRequest → Except String HttpResponse :=
  fun _ => .error "connection refused"

/-- A transport that answers every request with the given status and body. -/
def httpConst (status : Nat) (body : String) : HttpRequest → Except String HttpResponse :=
  fun _ => .ok { statusCode := status, body := body }

/-- A concrete environment: clock at `t`, transport `h`, every decoder
failing, ticket service succeeding with an empty ticket. -/
def testEnv (t : Nat) (h : HttpRequest → Except String HttpResponse) : Env :=
  { now := t
    http := h
    parseError := fun _ => none
    parseAuth := fun _ => none
    b64DecodePayload := fun _ => none
    parsePayload := fun _ => none
    ubiAuthOutcome := fun _ _ _ => .ok ()
    ubiGetTicket := fun _ _ _ => "" }

/-- A concrete session whose refresh deadline is `rat`. -/
def sessionAt (rat : Nat) : Nadeo :=
  { NewNadeoWithAudience "NadeoLiveServices" with tokenRefreshTime := rat }

theorem refreshNow_requests (n : Nadeo) (env : Env) :
    (n.refreshNow env).requests = [refreshRequest n] := by
  unfold Nadeo.refreshNow
  dsimp only
  rcases h : env.http (refreshRequest n) with e | resp
  · rfl
  · dsimp only
    split <;> rfl

theorem refreshNow_keeps_cache (n : Nadeo) (env : Env) :
    (n.refreshNow env).state.requestCache = n.requestCache := by
  unfold Nadeo.refreshNow
  dsimp only
  rcases h : env.http (refreshRequest n) with e | resp
  · rfl
  · dsimp only
    split <;> rfl

theorem CheckRefresh_noop (n : Nadeo) (env : Env)
    (h : ¬ env.now % 4294967296 > n.tokenRefreshTime) :
    n.CheckRefresh env = ⟨.ok (), n, []⟩ := by
  unfold Nadeo.CheckRefresh
  dsimp only
  rw [if_neg h]

theorem CheckRefresh_requests_due (n : Nadeo) (env : Env)
    (h : env.now % 4294967296 > n.tokenRefreshTime) :
    (n.CheckRefresh env).requests = [refreshRequest n] := by
  unfold Nadeo.CheckRefresh
  dsimp only
  rw [if_pos h]
  rcases hr : (n.refreshNow env).result with e | u
  · simp only [hr, refreshNow_requests]
  · simp only [hr, refreshNow_requests]

/-- C1 counterexample input: at `now = 100` with `tokenRefreshTime = 100` the
claim's trigger condition `now ≥ refreshAfter` holds, yet `CheckRefresh`
performs no refresh exchange and returns success, because the code tests the
strict inequality `now > n.tokenRefreshTime` (src/nadeo.go line 141). -/
theorem C1_counterexample :
    (testEnv 100 httpDown).now % 4294967296 ≥ (sessionAt 100).tokenRefreshTime ∧
    ((sessionAt 100).CheckRefresh (testEnv 100 httpDown)).requests = [] ∧
    ((sessionAt 100).CheckRefresh (testEnv 100 httpDown)).result = .ok () := by
  refine ⟨by decide, rfl, rfl⟩

/-- C1 (amended): `CheckRefresh` performs a refresh exchange exactly when the
truncated current time is strictly greater than `tokenRefreshTime`; when
`now ≤ tokenRefreshTime` it returns success with no request and no state
change; and when a refresh ran, an immediate subsequent `CheckRefresh` is a
no-op provided the newly stored refresh deadline is not already in the past. -/
theorem C1_checkRefresh (env : Env) (n : Nadeo) :
    (¬ env.now % 4294967296 > n.tokenRefreshTime →
      n.CheckRefresh env = ⟨.ok (), n, []⟩) ∧
    (env.now % 4294967296 > n.tokenRefreshTime →
      (n.CheckRefresh env).requests = [refreshRequest n]) ∧
    (env.now % 4294967296 > n.tokenRefreshTime →
      ¬ env.now % 4294967296 > (n.CheckRefresh env).state.tokenRefreshTime →
      ((n.CheckRefresh env).state.CheckRefresh env) =
        ⟨.ok (), (n.CheckRefresh env).state, []⟩) := by
  refine ⟨fun h => CheckRefresh_noop n env h,
          fun h => CheckRefresh_requests_due n env h,
          fun _ h2 => CheckRefresh_noop _ env h2⟩

/-- Concrete uses of `C1_checkRefresh`: at `now = 50 < 100` the call is a
no-op, and at `now = 200 > 100` exactly the refresh request is issued. -/
theorem C1_checkRefresh_witness :
    (sessionAt 100).CheckRefresh (testEnv 50 httpDown) = ⟨.ok (), sessionAt 100, []⟩ ∧
    ((sessionAt 100).CheckRefresh (testEnv 200 httpDown)).requests =
      [refreshRequest (sessionAt 100)] :=
  ⟨(C1_checkRefresh (testEnv 50 httpDown) (sessionAt 100)).1 (by decide),
   (C1_checkRefresh (testEnv 200 httpDown) (sessionAt 100)).2.1 (by decide)⟩

/-- C2: every authenticate-or-refresh call either fails (transport error or
non-200) leaving the whole session exactly as it was, or succeeds and
replaces accessToken, refreshToken, tokenRefreshTime and tokenExpirationTime
together, all derived from the body of the single 200 response via
`Nadeo.applyAuthResponse`. -/
theorem C2_atomic_update (env : Env) (n : Nadeo) (ticket username password : String) :
    ((∀ e, (n.AuthenticateUbiTicket env ticket).result = .error e →
        (n.AuthenticateUbiTicket env ticket).state = n) ∧
     ((n.AuthenticateUbiTicket env ticket).result = .ok () →
        ∃ resp, env.http (ubiTicketRequest n ticket) = .ok resp ∧ resp.statusCode = 200 ∧
          (n.AuthenticateUbiTicket env ticket).state = n.applyAuthResponse env resp.body)) ∧
    ((∀ e, (n.Authenticate env username password).result = .error e →
        (n.Authenticate env username password).state = n) ∧
     ((n.Authenticate env username password).result = .ok () →
        ∃ resp, env.http (basicAuthRequest n username password) = .ok resp ∧
          resp.statusCode = 200 ∧
          (n.Authenticate env username password).state = n.applyAuthResponse env resp.body)) ∧
    ((∀ e, (n.refreshNow env).result = .error e →
        (n.refreshNow env).state = n) ∧
     ((n.refreshNow env).result = .ok () →
        ∃ resp, env.http (refreshRequest n) = .ok resp ∧ resp.statusCode = 200 ∧
          (n.refreshNow env).state = n.applyAuthResponse env resp.body)) := by
  refine ⟨⟨?_, ?_⟩, ⟨?_, ?_⟩, ⟨?_, ?_⟩⟩
  · intro e he
    rcases h : env.http (ubiTicketRequest n ticket) with e2 | resp <;>
      simp only [Nadeo.AuthenticateUbiTicket, h] at he ⊢
    by_cases hs : resp.statusCode ≠ 200 <;> simp [hs] at he ⊢
  · intro hok
    rcases h : env.http (ubiTicketRequest n ticket) with e2 | resp
    · simp only [Nadeo.AuthenticateUbiTicket, h] at hok
      simp at hok
    · simp only [Nadeo.AuthenticateUbiTicket, h] at hok ⊢
      by_cases hs : resp.statusCode ≠ 200
      · simp [hs] at hok
      · exact ⟨resp, rfl, not_not.mp hs, by simp [hs]⟩
  · intro e he
    rcases h : env.http (basicAuthRequest n username password) with e2 | resp <;>
      simp only [Nadeo.Authenticate, h] at he ⊢
    by_cases hs : resp.statusCode ≠ 200 <;> simp [hs] at he ⊢
  · intro hok
    rcases h : env.http (basicAuthRequest n username password) with e2 | resp
    · simp only [Nadeo.Authenticate, h] at hok
      simp at hok
    · simp only [Nadeo.Authenticate, h] at hok ⊢
      by_cases hs : resp.statusCode ≠ 200
      · simp [hs] at hok
      · exact ⟨resp, rfl, not_not.mp hs, by simp [hs]⟩
  · intro e he
    rcases h : env.http (refreshRequest n) with e2 | resp <;>
      simp only [Nadeo.refreshNow, h] at he ⊢
    by_cases hs : resp.statusCode ≠ 200 <;> simp [hs] at he ⊢
  · intro hok
    rcases h : env.http (refreshRequest n) with e2 | resp
    · simp only [Nadeo.refreshNow, h] at hok
      simp at hok
    · simp only [Nadeo.refreshNow, h] at hok ⊢
      by_cases hs : resp.statusCode ≠ 200
      · simp [hs] at hok
      · exact ⟨resp, rfl, not_not.mp hs, by simp [hs]⟩

/-- Concrete uses of `C2_atomic_update`: a 200 exchange rewrites the session
through `applyAuthResponse`, and a transport failure leaves it untouched. -/
theorem C2_atomic_update_witness :
    (∃ resp, (testEnv 0 (httpConst 200 "B")).http (ubiTicketRequest NewNadeo "t") = .ok resp ∧
       resp.statusCode = 200 ∧
       (NewNadeo.AuthenticateUbiTicket (testEnv 0 (httpConst 200 "B")) "t").state =
         NewNadeo.applyAuthResponse (testEnv 0 (httpConst 200 "B")) resp.body) ∧
    (NewNadeo.refreshNow (testEnv 0 httpDown)).state = NewNadeo :=
  ⟨(C2_atomic_update (testEnv 0 (httpConst 200 "B")) NewNadeo "t" "u" "p").1.2 rfl,
   (C2_atomic_update (testEnv 0 httpDown) NewNadeo "t" "u" "p").2.2.1
     (.transport "connection refused") rfl⟩

theorem Cache.get_set_same (c : Cache) (now : Nat) (k v : String) :
    (c.set now k v).get now k = some v := by
  unfold Cache.get Cache.set
  simp [List.lookup]

theorem request_cache_hit (n : Nadeo) (env : Env) (method url data b : String)
    (h : n.requestCache.get env.now url = some b) :
    n.request env method url true data = ⟨.ok b, n, []⟩ := by
  unfold Nadeo.request
  simp only [if_true, h]

theorem request_miss_ok (n : Nadeo) (env : Env) (url : String) (resp : HttpResponse)
    (hmiss : n.requestCache.get env.now url = none)
    (hnr : ¬ env.now % 4294967296 > n.tokenRefreshTime)
    (hh : env.http (resourceRequest n "GET" url "") = .ok resp)
    (hs : resp.statusCode = 200) :
    n.Get env url true =
      ⟨.ok resp.body,
       { n with requestCache := n.requestCache.set env.now url resp.body },
       [resourceRequest n "GET" url ""]⟩ := by
  unfold Nadeo.Get Nadeo.request
  simp only [if_true, hmiss, CheckRefresh_noop n env hnr, hh, hs]
  simp

/-- C3: `get(target, useCache=true)` on a cache hit returns the cached body
with no refresh check and no network request; on a miss with a 200 response
(refresh not due) it issues exactly the one resource request, stores the body
under the target with the default TTL, and an identical second call at the
same time is answered from the cache with no request at all. -/
theorem C3_get_cache (env : Env) (n : Nadeo) (url : String) :
    (∀ b, n.requestCache.get env.now url = some b →
       n.Get env url true = ⟨.ok b, n, []⟩) ∧
    (n.requestCache.get env.now url = none →
     ¬ env.now % 4294967296 > n.tokenRefreshTime →
     ∀ resp, env.http (resourceRequest n "GET" url "") = .ok resp → resp.statusCode = 200 →
       n.Get env url true =
         ⟨.ok resp.body,
          { n with requestCache := n.requestCache.set env.now url resp.body },
          [resourceRequest n "GET" url ""]⟩ ∧
       Nadeo.Get { n with requestCache := n.requestCache.set env.now url resp.body } env url true =
         ⟨.ok resp.body,
          { n with requestCache := n.requestCache.set env.now url resp.body }, []⟩) := by
  constructor
  · intro b hb
    exact request_cache_hit n env "GET" url "" b hb
  · intro hmiss hnr resp hh hs
    refine ⟨request_miss_ok n env url resp hmiss hnr hh hs, ?_⟩
    exact request_cache_hit _ env "GET" url "" resp.body (Cache.get_set_same _ env.now url resp.body)

/-- Concrete use of `C3_get_cache`: with an empty cache and a 200 response,
the first `Get` issues one request and caches the body, and the identical
second call is served from the cache with no request. -/
theorem C3_get_cache_witness :
    NewNadeo.Get (testEnv 0 (httpConst 200 "BODY")) "https://api/x" true =
      ⟨.ok "BODY",
       { NewNadeo with requestCache :=
           NewNadeo.requestCache.set 0 "https://api/x" "BODY" },
       [resourceRequest NewNadeo "GET" "https://api/x" ""]⟩ ∧
    Nadeo.Get
        { NewNadeo with requestCache := NewNadeo.requestCache.set 0 "https://api/x" "BODY" }
        (testEnv 0 (httpConst 200 "BODY")) "https://api/x" true =
      ⟨.ok "BODY",
       { NewNadeo with requestCache := NewNadeo.requestCache.set 0 "https://api/x" "BODY" },
       []⟩ :=
  (C3_get_cache (testEnv 0 (httpConst 200 "BODY")) NewNadeo "https://api/x").2
    rfl (by decide) ⟨200, "BODY"⟩ rfl rfl

/-- C4: every non-200 response on the three authentication/refresh exchanges
yields the auth error built from the code and message decoded out of the
error envelope; when the envelope does not decode, the error carries the
zero-valued code `0` and empty message, with no separate parse failure. -/
theorem C4_auth_error_envelope (env : Env) (n : Nadeo) (ticket username password : String) :
    (∀ resp, env.http (ubiTicketRequest n ticket) = .ok resp → resp.statusCode ≠ 200 →
       (n.AuthenticateUbiTicket env ticket).result =
         .error (.authError ((env.parseError resp.body).getD ⟨0, ""⟩).code
                            ((env.parseError resp.body).getD ⟨0, ""⟩).message) ∧
       (env.parseError resp.body = none →
         (n.AuthenticateUbiTicket env ticket).result = .error (.authError 0 ""))) ∧
    (∀ resp, env.http (basicAuthRequest n username password) = .ok resp →
       resp.statusCode ≠ 200 →
       (n.Authenticate env username password).result =
         .error (.authError ((env.parseError resp.body).getD ⟨0, ""⟩).code
                            ((env.parseError resp.body).getD ⟨0, ""⟩).message) ∧
       (env.parseError resp.body = none →
         (n.Authenticate env username password).result = .error (.authError 0 ""))) ∧
    (∀ resp, env.http (refreshRequest n) = .ok resp → resp.statusCode ≠ 200 →
       (n.refreshNow env).result =
         .error (.authError ((env.parseError resp.body).getD ⟨0, ""⟩).code
                            ((env.parseError resp.body).getD ⟨0, ""⟩).message) ∧
       (env.parseError resp.body = none →
         (n.refreshNow env).result = .error (.authError 0 ""))) := by
  refine ⟨?_, ?_, ?_⟩
  · intro resp hh hs
    simp only [Nadeo.AuthenticateUbiTicket, hh, if_pos hs]
    exact ⟨trivial, fun hp => by simp [hp]⟩
  · intro resp hh hs
    simp only [Nadeo.Authenticate, hh, if_pos hs]
    exact ⟨trivial, fun hp => by simp [hp]⟩
  · intro resp hh hs
    simp only [Nadeo.refreshNow, hh, if_pos hs]
    exact ⟨trivial, fun hp => by simp [hp]⟩

/-- Concrete uses of `C4_auth_error_envelope`: an undecodable envelope yields
the zero-valued auth error, and a decoded envelope is surfaced verbatim. -/
theorem C4_auth_error_envelope_witness :
    (NewNadeo.Authenticate (testEnv 0 (httpConst 401 "oops")) "u" "p").result =
      .error (.authError 0 "") ∧
    (NewNadeo.Authenticate
        { testEnv 0 (httpConst 401 "bad") with
            parseError := fun _ => some ⟨401, "Invalid credentials."⟩ } "u" "p").result =
      .error (.authError 401 "Invalid credentials.") :=
  ⟨((C4_auth_error_envelope (testEnv 0 (httpConst 401 "oops")) NewNadeo "t" "u" "p").2.1
      ⟨401, "oops"⟩ rfl (by decide)).2 rfl,
   ((C4_auth_error_envelope
        { testEnv 0 (httpConst 401 "bad") with
            parseError := fun _ => some ⟨401, "Invalid credentials."⟩ } NewNadeo "t" "u" "p").2.1
      ⟨401, "bad"⟩ rfl (by decide)).1⟩

/-- C5: a non-200 response on a resource call (cache miss path, refresh check
passed) fails with the server error built from the raw response body alone —
no error envelope is decoded — and its rendered text carries the raw body. -/
theorem C5_server_error (env : Env) (n : Nadeo) (method url data : String) (useCache : Bool) :
    (if useCache then n.requestCache.get env.now url else none) = none →
    (n.CheckRefresh env).result = .ok () →
    ∀ resp, env.http (resourceRequest (n.CheckRefresh env).state method url data) = .ok resp →
      resp.statusCode ≠ 200 →
      (n.request env method url useCache data).result = .error (.serverError resp.body) ∧
      Err.render (.serverError resp.body) = "error from server: " ++ resp.body := by
  intro hmiss hcr resp hh hs
  refine ⟨?_, rfl⟩
  unfold Nadeo.request
  rw [hmiss]
  simp only [hcr, hh, if_pos hs]

/-- Concrete use of `C5_server_error`: a 500 response with body BOOM fails
with the server error whose rendered text ends in BOOM. -/
theorem C5_server_error_witness :
    (NewNadeo.request (testEnv 0 (httpConst 500 "BOOM")) "GET" "https://api/y" false "").result =
      .error (.serverError "BOOM") ∧
    Err.render (.serverError "BOOM") = "error from server: " ++ "BOOM" :=
  (C5_server_error (testEnv 0 (httpConst 500 "BOOM")) NewNadeo "GET" "https://api/y" "" false)
    rfl rfl ⟨500, "BOOM"⟩ rfl (by decide)

/-- C6 counterexample input: with ticket abc the single request built by the
ticket flow carries the Authorization header value `ubi_v1 t=abc`
(src/nadeo.go line 55), not the claimed `ticket_v1 t=abc`. -/
theorem C6_counterexample :
    ((NewNadeo.AuthenticateUbiTicket (testEnv 0 httpDown) "abc").requests.map
        HttpRequest.headers) =
      [[("Content-Type", "application/json"), ("Authorization", "ubi_v1 t=abc")]] ∧
    ("ubi_v1 t=abc" : String) ≠ "ticket_v1 t=abc" :=
  ⟨rfl, by decide⟩

/-- C6 (amended): for every ticket, the ticket-based flow issues exactly one
request: a POST to the token/ubiservices endpoint whose JSON body names the
audience and whose Authorization header is `ubi_v1 t=<ticket>` (the code
uses the `ubi_v1` scheme, not `ticket_v1`). -/
theorem C6_ubi_ticket_flow (env : Env) (n : Nadeo) (ticket : String) :
    (n.AuthenticateUbiTicket env ticket).requests = [ubiTicketRequest n ticket] ∧
    ubiTicketRequest n ticket =
      { method := "POST"
        url := "https://prod.trackmania.core.nadeo.online/v2/authentication/token/ubiservices"
        headers := [("Content-Type", "application/json"),
                    ("Authorization", "ubi_v1 t=" ++ ticket)]
        body := some ("\x7b\"audience\":\"" ++ n.audience ++ "\"\x7d") } := by
  refine ⟨?_, rfl⟩
  unfold Nadeo.AuthenticateUbiTicket
  dsimp only
  rcases h : env.http (ubiTicketRequest n ticket) with e | resp
  · rfl
  · dsimp only
    split <;> rfl

/-- C7: with no prior authentication (a freshly constructed session) and a
positive clock, `CheckRefresh` attempts the refresh exchange using the empty
refresh token (`Authorization: nadeo_v1 t=`), and a non-200 rejection is
surfaced as the auth error decoded from the server envelope, inside only the
standard refresh wrapper — no distinct not-authenticated error is made. -/
theorem C7_unauthenticated_refresh (env : Env) (audience : String) :
    0 < env.now % 4294967296 →
    ∀ resp, env.http (refreshRequest (NewNadeoWithAudience audience)) = .ok resp →
      resp.statusCode ≠ 200 →
      (NewNadeoWithAudience audience).CheckRefresh env =
        ⟨.error (.refreshWrap (.authError
            ((env.parseError resp.body).getD ⟨0, ""⟩).code
            ((env.parseError resp.body).getD ⟨0, ""⟩).message)),
         NewNadeoWithAudience audience,
         [refreshRequest (NewNadeoWithAudience audience)]⟩ ∧
      refreshRequest (NewNadeoWithAudience audience) =
        { method := "POST"
          url := "https://prod.trackmania.core.nadeo.online/v2/authentication/token/refresh"
          headers := [("Authorization", "nadeo_v1 t=")]
          body := none } := by
  intro hpos resp hh hs
  have hgt : env.now % 4294967296 > (NewNadeoWithAudience audience).tokenRefreshTime := hpos
  have hrn : (NewNadeoWithAudience audience).refreshNow env =
      ⟨.error (.authError ((env.parseError resp.body).getD ⟨0, ""⟩).code
                          ((env.parseError resp.body).getD ⟨0, ""⟩).message),
       NewNadeoWithAudience audience, [refreshRequest (NewNadeoWithAudience audience)]⟩ := by
    unfold Nadeo.refreshNow
    simp only [hh, if_pos hs]
  constructor
  · unfold Nadeo.CheckRefresh
    dsimp only
    rw [if_pos hgt, hrn]
  · rfl

/-- Concrete use of `C7_unauthenticated_refresh`: at clock 5, the fresh
session's `CheckRefresh` is rejected by a 401 whose envelope does not decode,
yielding the zero-valued auth error in the refresh wrapper. -/
theorem C7_unauthenticated_refresh_witness :
    (NewNadeoWithAudience "NadeoLiveServices").CheckRefresh (testEnv 5 (httpConst 401 "no")) =
      ⟨.error (.refreshWrap (.authError 0 "")), NewNadeoWithAudience "NadeoLiveServices",
       [refreshRequest (NewNadeoWithAudience "NadeoLiveServices")]⟩ :=
  (C7_unauthenticated_refresh (testEnv 5 (httpConst 401 "no")) "NadeoLiveServices"
      (by decide) ⟨401, "no"⟩ rfl (by decide)).1

theorem refreshNow_cache_swap (n : Nadeo) (env : Env) (c2 : Cache) :
    Nadeo.refreshNow { n with requestCache := c2 } env =
      ⟨(n.refreshNow env).result,
       { (n.refreshNow env).state with requestCache := c2 },
       (n.refreshNow env).requests⟩ := by
  have e1 : refreshRequest { n with requestCache := c2 } = refreshRequest n := rfl
  unfold Nadeo.refreshNow
  dsimp only
  rw [e1]
  rcases h : env.http (refreshRequest n) with e | resp
  · rfl
  · dsimp only
    split <;> rfl

theorem CheckRefresh_keeps_cache (n : Nadeo) (env : Env) :
    (n.CheckRefresh env).state.requestCache = n.requestCache := by
  unfold Nadeo.CheckRefresh
  dsimp only
  by_cases hc : env.now % 4294967296 > n.tokenRefreshTime
  · simp only [if_pos hc]
    rcases hr : (n.refreshNow env).result with e | u <;>
      simp [hr, refreshNow_keeps_cache]
  · simp only [if_neg hc]

theorem CheckRefresh_cache_swap (n : Nadeo) (env : Env) (c2 : Cache) :
    Nadeo.CheckRefresh { n with requestCache := c2 } env =
      ⟨(n.CheckRefresh env).result,
       { (n.CheckRefresh env).state with requestCache := c2 },
       (n.CheckRefresh env).requests⟩ := by
  unfold Nadeo.CheckRefresh
  dsimp only
  by_cases hc : env.now % 4294967296 > n.tokenRefreshTime
  · simp only [if_pos hc]
    rw [refreshNow_cache_swap n env c2]
    dsimp only
    rcases hr : (n.refreshNow env).result with e | u <;> simp [hr]
  · simp only [if_neg hc]

theorem request_noCache_checkFail (n : Nadeo) (env : Env) (method url data : String) (e : Err)
    (he : (n.CheckRefresh env).result = .error e) :
    n.request env method url false data =
      ⟨.error e, (n.CheckRefresh env).state, (n.CheckRefresh env).requests⟩ := by
  unfold Nadeo.request
  simp [he]

theorem request_noCache_transport (n : Nadeo) (env : Env) (method url data : String)
    (e : String)
    (hok : (n.CheckRefresh env).result = .ok ())
    (hh : env.http (resourceRequest (n.CheckRefresh env).state method url data) = .error e) :
    n.request env method url false data =
      ⟨.error (.transport e), (n.CheckRefresh env).state,
       (n.CheckRefresh env).requests ++
         [resourceRequest (n.CheckRefresh env).state method url data]⟩ := by
  unfold Nadeo.request
  simp [hok, hh]

theorem request_noCache_server (n : Nadeo) (env : Env) (method url data : String)
    (resp : HttpResponse)
    (hok : (n.CheckRefresh env).result = .ok ())
    (hh : env.http (resourceRequest (n.CheckRefresh env).state method url data) = .ok resp)
    (hs : resp.statusCode ≠ 200) :
    n.request env method url false data =
      ⟨.error (.serverError resp.body), (n.CheckRefresh env).state,
       (n.CheckRefresh env).requests ++
         [resourceRequest (n.CheckRefresh env).state method url data]⟩ := by
  unfold Nadeo.request
  simp [hok, hh, hs]

theorem request_noCache_success (n : Nadeo) (env : Env) (method url data : String)
    (resp : HttpResponse)
    (hok : (n.CheckRefresh env).result = .ok ())
    (hh : env.http (resourceRequest (n.CheckRefresh env).state method url data) = .ok resp)
    (hs : resp.statusCode = 200) :
    n.request env method url false data =
      ⟨.ok resp.body, (n.CheckRefresh env).state,
       (n.CheckRefresh env).requests ++
         [resourceRequest (n.CheckRefresh env).state method url data]⟩ := by
  unfold Nadeo.request
  simp [hok, hh, hs]

/-- C8: `Post` performs the refresh check and then the HTTP call exactly as a
non-cached request does, and never reads from or writes to the Response
Cache: the cache it returns is the one it was given, and replacing the cache
beforehand changes neither its result nor the requests it issues. -/
theorem C8_post_no_cache (env : Env) (n : Nadeo) (url data : String) (c2 : Cache) :
    ((n.Post env url data).state.requestCache = n.requestCache) ∧
    (Nadeo.Post { n with requestCache := c2 } env url data =
      ⟨(n.Post env url data).result,
       { (n.Post env url data).state with requestCache := c2 },
       (n.Post env url data).requests⟩) ∧
    ((n.CheckRefresh env).result = .ok () →
      (n.Post env url data).requests =
        (n.CheckRefresh env).requests ++
          [resourceRequest (n.CheckRefresh env).state "POST" url data]) ∧
    (∀ e, (n.CheckRefresh env).result = .error e →
      n.Post env url data =
        ⟨.error e, (n.CheckRefresh env).state, (n.CheckRefresh env).requests⟩) := by
  have hcs := CheckRefresh_cache_swap n env c2
  have hres : (Nadeo.CheckRefresh { n with requestCache := c2 } env).result
      = (n.CheckRefresh env).result := by rw [hcs]
  rcases hr : (n.CheckRefresh env).result with e | u
  · have h1 := request_noCache_checkFail n env "POST" url data e hr
    have h1m := request_noCache_checkFail { n with requestCache := c2 } env "POST" url data e
      (by rw [hres, hr])
    refine ⟨?_, ?_, ?_, ?_⟩
    · simp only [Nadeo.Post, h1]
      exact CheckRefresh_keeps_cache n env
    · simp only [Nadeo.Post, h1, h1m, hcs]
    · intro hok
      exact Except.noConfusion hok
    · intro e2 he2
      injection he2 with hee
      subst hee
      simp only [Nadeo.Post, h1]
  · have hr0 : (n.CheckRefresh env).result = .ok () := hr
    rcases hh : env.http (resourceRequest (n.CheckRefresh env).state "POST" url data)
      with e2 | resp
    · have h2 := request_noCache_transport n env "POST" url data e2 hr0 hh
      have h2m := request_noCache_transport { n with requestCache := c2 } env "POST" url data e2
        (by rw [hres, hr0]) (by rw [hcs]; exact hh)
      refine ⟨?_, ?_, ?_, ?_⟩
      · simp only [Nadeo.Post, h2]
        exact CheckRefresh_keeps_cache n env
      · simp only [Nadeo.Post, h2, h2m, hcs, resourceRequest]
      · intro _
        simp only [Nadeo.Post, h2]
      · intro e3 he3
        exact Except.noConfusion he3
    · by_cases hs : resp.statusCode ≠ 200
      · have h3 := request_noCache_server n env "POST" url data resp hr0 hh hs
        have h3m := request_noCache_server { n with requestCache := c2 } env "POST" url data resp
          (by rw [hres, hr0]) (by rw [hcs]; exact hh) hs
        refine ⟨?_, ?_, ?_, ?_⟩
        · simp only [Nadeo.Post, h3]
          exact CheckRefresh_keeps_cache n env
        · simp only [Nadeo.Post, h3, h3m, hcs, resourceRequest]
        · intro _
          simp only [Nadeo.Post, h3]
        · intro e3 he3
          exact Except.noConfusion he3
      · have h4 := request_noCache_success n env "POST" url data resp hr0 hh (not_not.mp hs)
        have h4m := request_noCache_success { n with requestCache := c2 } env "POST" url data resp
          (by rw [hres, hr0]) (by rw [hcs]; exact hh) (not_not.mp hs)
        refine ⟨?_, ?_, ?_, ?_⟩
        · simp only [Nadeo.Post, h4]
          exact CheckRefresh_keeps_cache n env
        · simp only [Nadeo.Post, h4, h4m, hcs, resourceRequest]
        · intro _
          simp only [Nadeo.Post, h4]
        · intro e3 he3
          exact Except.noConfusion he3

/-- Concrete use of `C8_post_no_cache`: with the refresh check passing, the
`Post` call issues exactly the one POST resource request. -/
theorem C8_post_no_cache_witness :
    (NewNadeo.Post (testEnv 0 (httpConst 200 "R")) "https://api/z" "D").requests =
      (NewNadeo.CheckRefresh (testEnv 0 (httpConst 200 "R"))).requests ++
        [resourceRequest (NewNadeo.CheckRefresh (testEnv 0 (httpConst 200 "R"))).state
          "POST" "https://api/z" "D"] :=
  (C8_post_no_cache (testEnv 0 (httpConst 200 "R")) NewNadeo "https://api/z" "D"
      NewNadeo.requestCache).2.2.1 rfl

theorem parseTokenInfo_empty_token (env : Env) :
    parseTokenInfo env "" = ⟨⟨0, 0⟩⟩ := rfl

/-- C9: `AuthenticateUbi` discards the outcome of the external ticket
service's login/password exchange: its result is exactly
`AuthenticateUbiTicket` applied to whatever ticket string the service yields
(possibly empty), and replacing the exchange outcome changes nothing, so a
ticket-service failure is never surfaced as its own error. -/
theorem C9_ubi_ignores_ticket_failure (env : Env) (n : Nadeo) (email password : String)
    (outcome2 : String → String → String → Except String Unit) :
    n.AuthenticateUbi env email password =
      n.AuthenticateUbiTicket env
        (env.ubiGetTicket "86263886-327a-4328-ac69-527f0d20a237" email password) ∧
    Nadeo.AuthenticateUbi n { env with ubiAuthOutcome := outcome2 } email password =
      n.AuthenticateUbi env email password :=
  ⟨rfl, rfl⟩

/-- The session state produced by storing a zero-valued success envelope:
empty tokens and zero timing fields. -/
def Nadeo.zeroTokens (n : Nadeo) : Nadeo :=
  { n with accessToken := "", refreshToken := "", tokenRefreshTime := 0,
           tokenExpirationTime := 0 }

/-- C10: when a 200 auth/refresh response body does not decode as the success
envelope, the call still returns success and silently stores the zero-valued
result: both tokens become the empty string, and decoding the empty token
swallows its failure, leaving both timing fields zero. -/
theorem C10_silent_zero_tokens (env : Env) (n : Nadeo) (ticket : String) :
    (∀ resp, env.http (ubiTicketRequest n ticket) = .ok resp → resp.statusCode = 200 →
      env.parseAuth resp.body = none →
      n.AuthenticateUbiTicket env ticket =
        ⟨.ok (), n.zeroTokens, [ubiTicketRequest n ticket]⟩) ∧
    (∀ resp, env.http (refreshRequest n) = .ok resp → resp.statusCode = 200 →
      env.parseAuth resp.body = none →
      n.refreshNow env =
        ⟨.ok (), n.zeroTokens, [refreshRequest n]⟩) := by
  constructor
  · intro resp hh hs hp
    unfold Nadeo.AuthenticateUbiTicket
    simp [hh, hs, Nadeo.applyAuthResponse, hp, parseTokenInfo_empty_token, Nadeo.zeroTokens]
  · intro resp hh hs hp
    unfold Nadeo.refreshNow
    simp [hh, hs, Nadeo.applyAuthResponse, hp, parseTokenInfo_empty_token, Nadeo.zeroTokens]

/-- Concrete use of `C10_silent_zero_tokens`: a 200 response whose body does
not decode leaves a successfully "authenticated" session with empty tokens
and zero timing fields. -/
theorem C10_silent_zero_tokens_witness :
    (sessionAt 7).AuthenticateUbiTicket (testEnv 0 (httpConst 200 "garbage")) "t" =
      ⟨.ok (), (sessionAt 7).zeroTokens, [ubiTicketRequest (sessionAt 7) "t"]⟩ :=
  (C10_silent_zero_tokens (testEnv 0 (httpConst 200 "garbage")) (sessionAt 7) "t").1
    ⟨200, "garbage"⟩ rfl rfl rfl

/-- C3 counterexample input: with the refresh deadline already passed (clock
10, deadline 0) and an empty cache, the two quick-succession cached `Get`
calls issue two network requests in total — the first call performs the
refresh exchange and then the resource request — not exactly one as claimed. -/
theorem C3_counterexample :
    ((sessionAt 0).Get (testEnv 10 (httpConst 200 "BODY")) "https://api/x" true).requests.length
        +
      (Nadeo.Get
          ((sessionAt 0).Get (testEnv 10 (httpConst 200 "BODY")) "https://api/x" true).state
          (testEnv 10 (httpConst 200 "BODY")) "https://api/x" true).requests.length = 2 ∧
    (2 : Nat) ≠ 1 :=
  ⟨rfl, by decide⟩
